import Mathlib

/-!
Verification of the AMD GPU debugger core against its specification.

The development shallowly embeds the C sources of the repository:
* `src/pm4.h` / `src/pm4.c` — PM4 type-3 packet encoder (headers, builders);
* `src/bo.c` / `src/bo.h` — buffer-object allocation, upload and release;
* `src/regs.c` / `src/regs.h` — privileged register access and trap-handler setup.

Machine integers are modelled as `Nat` with explicit truncation (`% 2 ^ 32`,
`% 2 ^ 64`, masks) wherever the C code truncates.  The packet stream
(`pkt3_packets_t`, a growable array of `uint32_t`) is modelled as `List Nat`;
`da_append` appends one word at the end of the list (the reallocation and its
out-of-memory assert are outside the model).  A fatal `HDB_ASSERT` abort is
modelled by returning `none` from an `Option`-valued function.
-/

/-! ## PM4 packet encoder (src/pm4.h, src/pm4.c) -/

/-- Opcode constants from `src/pm4.h`. -/
def PKT3_DISPATCH_DIRECT : Nat := 0x15

def PKT3_ACQUIRE_MEM : Nat := 0x58

def PKT3_SET_SH_REG : Nat := 0x76

def PKT3_RELEASE_MEM : Nat := 0x49

/-- SH-register window bounds from `src/pm4.h`. -/
def SI_SH_REG_OFFSET : Nat := 0x2C00

def SI_SH_REG_END : Nat := 0x3000

/-- Compute-shader register offsets from `src/pm4.h`. -/
def R_00B848_COMPUTE_PGM_RSRC1 : Nat := 0xB848

def R_00B84C_COMPUTE_PGM_RSRC2 : Nat := 0xB84C

def R_00B8A0_COMPUTE_PGM_RSRC3 : Nat := 0xB8A0

def R_00B830_COMPUTE_PGM_LO : Nat := 0xB830

def R_00B834_COMPUTE_PGM_HI : Nat := 0xB834

def R_00B81C_COMPUTE_NUM_THREAD_X : Nat := 0xB81C

def R_00B820_COMPUTE_NUM_THREAD_Y : Nat := 0xB820

def R_00B824_COMPUTE_NUM_THREAD_Z : Nat := 0xB824

def COMPUTE_DISPATCH_INITIATOR_COMPUTE_SHADER_EN : Nat := 1 <<< 0

def COMPUTE_DISPATCH_INITIATOR_FORCE_START_AT_000 : Nat := 1 <<< 1

/-- `PKT3(op, count, predicate)` from `src/pm4.h`:
`(3 << 30) | (((op) & 0xFF) << 8) | ((count) & 0x3FFF) | ((predicate) << 31)`,
truncated to 32 bits as the result is stored in a `uint32_t` stream word. -/
def PKT3 (op count predicate : Nat) : Nat :=
  ((3 <<< 30) ||| ((op &&& 0xFF) <<< 8) ||| (count &&& 0x3FFF) ||| (predicate <<< 31)) % 2 ^ 32

/-- `PKT3_SHADER_TYPE_S(shader_type)` from `src/pm4.h`: `((shader_type) & 0x1) << 1`. -/
def PKT3_SHADER_TYPE_S (shader_type : Nat) : Nat :=
  (shader_type &&& 0x1) <<< 1

/-- Decoder from the spec's header layout: the opcode field, bits [15:8]. -/
def pkt_opcode_field (h : Nat) : Nat :=
  (h >>> 8) &&& 0xFF

/-- Decoder from the spec's header layout: the trailing-dword count field, bits [13:0]. -/
def pkt_count_field (h : Nat) : Nat :=
  h &&& 0x3FFF

/-- Decoder from the spec's header layout: the low 8 bits of the header. -/
def pkt_low8 (h : Nat) : Nat :=
  h &&& 0xFF

/-- Decoder from the spec's header layout: the predicate flag, bit [31:31]. -/
def pkt_predicate_bit (h : Nat) : Nat :=
  (h >>> 31) &&& 0x1

/-- `pkt3_set_sh_reg` from `src/pm4.c`.  The `HDB_ASSERT` on the SH window is
modelled as returning `none` (process abort). -/
def pkt3_set_sh_reg (packets : List Nat) (reg value : Nat) : Option (List Nat) :=
  if SI_SH_REG_OFFSET ≤ reg ∧ reg < SI_SH_REG_END then
    some (packets ++ [PKT3 PKT3_SET_SH_REG 1 0, (reg - SI_SH_REG_OFFSET) / 4, value])
  else
    none

/-- `pkt3_dispatch_direct` from `src/pm4.c`. -/
def pkt3_dispatch_direct (packets : List Nat)
    (dim_x dim_y dim_z dispatch_initiator : Nat) : List Nat :=
  packets ++ [(PKT3 PKT3_DISPATCH_DIRECT 3 0 ||| PKT3_SHADER_TYPE_S 1) % 2 ^ 32,
              dim_x, dim_y, dim_z, dispatch_initiator]

/-- `pkt3_acquire_mem` from `src/pm4.c`. -/
def pkt3_acquire_mem (packets : List Nat) : List Nat :=
  packets ++ [PKT3 PKT3_ACQUIRE_MEM 5 0,
              (1 <<< 0) ||| (1 <<< 1) ||| (1 <<< 3) ||| (1 <<< 4),
              0xFFFFFFFF,
              0xFF,
              0,
              0,
              0]

/-- `pkt3_release_mem` from `src/pm4.c`.  `va` is a `uint64_t`, split into two
`uint32_t` words exactly as the casts in the C code do. -/
def pkt3_release_mem (packets : List Nat) (va fence_value : Nat) : List Nat :=
  packets ++ [PKT3 PKT3_RELEASE_MEM 6 0,
              (0x5 <<< 0) ||| (0x2E <<< 8),
              1,
              va &&& 0xFFFFFFFF,
              (va >>> 32) % 2 ^ 32,
              fence_value,
              0,
              0]

/-- `build_compute_dispatch` from `src/pm4.c`.  The alignment `HDB_ASSERT` and
any abort inside a nested `pkt3_set_sh_reg` are modelled as `none`. -/
def build_compute_dispatch (packets : List Nat)
    (code_va rsrc1 rsrc2 rsrc3 threads_x threads_y threads_z
     groups_x groups_y groups_z : Nat) : Option (List Nat) :=
  if code_va &&& 0xFF = 0 then
    let ps1 := pkt3_acquire_mem packets
    let pgm_lo := (code_va >>> 8) % 2 ^ 32
    let pgm_hi := (code_va >>> 40) % 2 ^ 32
    (pkt3_set_sh_reg ps1 R_00B830_COMPUTE_PGM_LO pgm_lo).bind fun ps2 =>
    (pkt3_set_sh_reg ps2 R_00B834_COMPUTE_PGM_HI pgm_hi).bind fun ps3 =>
    (pkt3_set_sh_reg ps3 R_00B848_COMPUTE_PGM_RSRC1 rsrc1).bind fun ps4 =>
    (pkt3_set_sh_reg ps4 R_00B84C_COMPUTE_PGM_RSRC2 rsrc2).bind fun ps5 =>
    (pkt3_set_sh_reg ps5 R_00B8A0_COMPUTE_PGM_RSRC3 rsrc3).bind fun ps6 =>
    (pkt3_set_sh_reg ps6 R_00B81C_COMPUTE_NUM_THREAD_X threads_x).bind fun ps7 =>
    (pkt3_set_sh_reg ps7 R_00B820_COMPUTE_NUM_THREAD_Y threads_y).bind fun ps8 =>
    (pkt3_set_sh_reg ps8 R_00B824_COMPUTE_NUM_THREAD_Z threads_z).bind fun ps9 =>
    some (pkt3_dispatch_direct ps9 groups_x groups_y groups_z
      (COMPUTE_DISPATCH_INITIATOR_COMPUTE_SHADER_EN |||
       COMPUTE_DISPATCH_INITIATOR_FORCE_START_AT_000))
  else
    none

/-! ## Helper lemmas for bit arithmetic -/

/-- Disjoint bitwise OR is addition: if `a` is a multiple of `2 ^ k` and
`b < 2 ^ k` then `a ||| b = a + b`. -/
theorem lor_eq_add_of_lt {a b k : Nat} (hb : b < 2 ^ k) (ha : a % 2 ^ k = 0) :
    a ||| b = a + b := by
  obtain ⟨a1, rfl⟩ : ∃ a1, a = 2 ^ k * a1 :=
    ⟨a / 2 ^ k, (Nat.mul_div_cancel' (Nat.dvd_of_mod_eq_zero ha)).symm⟩
  exact (Nat.mul_add_lt_is_or hb a1).symm

/-- ORing in a single bit that is already set is the identity. -/
theorem lor_two_pow_eq_self {x k : Nat} (h : x / 2 ^ k % 2 = 1) :
    x ||| 2 ^ k = x := by
  apply Nat.eq_of_testBit_eq
  intro i
  rcases eq_or_ne i k with rfl | hik
  · rw [Nat.testBit_or, Nat.testBit_two_pow_self, Nat.testBit_to_div_mod]
    simp [h]
  · rw [Nat.testBit_or, Nat.testBit_two_pow_of_ne (fun hh => hik hh.symm)]
    simp

/-- The header built by `PKT3` in closed arithmetic form, for an 8-bit opcode,
a count below 256 and a 0/1 predicate. -/
theorem PKT3_arith {o c p : Nat} (ho : o < 256) (hc : c < 256) (hp : p ≤ 1) :
    PKT3 o c p = 0xC0000000 + 256 * o + c := by
  have hmo : o &&& 0xFF = o := by
    have h := Nat.and_pow_two_sub_one_eq_mod o 8
    norm_num at h
    omega
  have hmc : c &&& 0x3FFF = c := by
    have h := Nat.and_pow_two_sub_one_eq_mod c 14
    norm_num at h
    omega
  have hsh : o <<< 8 = 256 * o := by
    rw [Nat.shiftLeft_eq]; ring
  have h330 : (3 : Nat) <<< 30 = 3221225472 := by decide
  unfold PKT3
  rw [hmo, hmc, hsh, h330]
  have h1 : (3221225472 : Nat) ||| (256 * o) = 3221225472 + 256 * o := by
    apply lor_eq_add_of_lt (k := 16) (by omega) (by decide)
  rw [h1]
  have h2 : (3221225472 + 256 * o) ||| c = 3221225472 + 256 * o + c := by
    apply lor_eq_add_of_lt (k := 8) (by omega)
    omega
  rw [h2]
  interval_cases p
  · have h0 : (0 : Nat) <<< 31 = 0 := by decide
    rw [h0, Nat.or_zero, Nat.mod_eq_of_lt (by omega)]
  · have h131 : (1 : Nat) <<< 31 = 2 ^ 31 := by decide
    rw [h131, lor_two_pow_eq_self (by omega), Nat.mod_eq_of_lt (by omega)]

/-- The opcode-field decoder in div/mod form. -/
theorem pkt_opcode_field_eq (x : Nat) : pkt_opcode_field x = x / 256 % 256 := by
  unfold pkt_opcode_field
  rw [Nat.shiftRight_eq_div_pow]
  have h := Nat.and_pow_two_sub_one_eq_mod (x / 2 ^ 8) 8
  norm_num at h ⊢
  exact h

/-- The count-field decoder in div/mod form. -/
theorem pkt_count_field_eq (x : Nat) : pkt_count_field x = x % 16384 := by
  unfold pkt_count_field
  have h := Nat.and_pow_two_sub_one_eq_mod x 14
  norm_num at h ⊢
  exact h

/-- The low-8-bits decoder in div/mod form. -/
theorem pkt_low8_eq (x : Nat) : pkt_low8 x = x % 256 := by
  unfold pkt_low8
  have h := Nat.and_pow_two_sub_one_eq_mod x 8
  norm_num at h ⊢
  exact h

/-- The predicate-bit decoder in div/mod form. -/
theorem pkt_predicate_bit_eq (x : Nat) : pkt_predicate_bit x = x / 2 ^ 31 % 2 := by
  unfold pkt_predicate_bit
  rw [Nat.shiftRight_eq_div_pow]
  exact Nat.and_one_is_mod _

/-! ## C1: packet header round-trip -/

/-- C1 (counterexample): the claimed round-trip fails as stated.  At opcode
`0x10`, count `0x100 < 16384`, predicate `0`, the header decodes to opcode
`0x11` (count bits leak into the opcode field), count `0x1100` (opcode bits
leak into the count field), and predicate bit `1` (bit 31 is part of the
`3 << 30` type tag and is always set). -/
theorem c1_counterexample :
    pkt_opcode_field (PKT3 0x10 0x100 0) ≠ 0x10 ∧
    pkt_count_field (PKT3 0x10 0x100 0) ≠ 0x100 ∧
    pkt_predicate_bit (PKT3 0x10 0x100 0) ≠ 0 := by
  decide

/-- C1 (amended): for an 8-bit opcode `o`, a count `c < 256` and a predicate
`p ∈ {0,1}`, the header built by `PKT3` decodes as follows: bits [8:15] yield
`o`; the low 8 bits yield `c`; bits [0:13] yield `c + 256 * (o % 64)` (the low
6 opcode bits overlap the 14-bit count mask); and bit [31:31] is always `1`,
because the type tag `3 << 30` occupies bit 31 regardless of `p`. -/
theorem c1_header_roundtrip {o c p : Nat} (ho : o < 256) (hc : c < 256)
    (hp : p ≤ 1) :
    pkt_opcode_field (PKT3 o c p) = o ∧
    pkt_low8 (PKT3 o c p) = c ∧
    pkt_count_field (PKT3 o c p) = c + 256 * (o % 64) ∧
    pkt_predicate_bit (PKT3 o c p) = 1 := by
  rw [pkt_opcode_field_eq, pkt_low8_eq, pkt_count_field_eq, pkt_predicate_bit_eq,
    PKT3_arith ho hc hp]
  refine ⟨by omega, by omega, by omega, by omega⟩

/-- C1 (witness): the amended round-trip at the concrete point
`o = 0x76`, `c = 1`, `p = 0` (the register-write header). -/
theorem c1_header_roundtrip_witness :
    (0x76 : Nat) < 256 ∧ (1 : Nat) < 256 ∧ (0 : Nat) ≤ 1 ∧
    (pkt_opcode_field (PKT3 0x76 1 0) = 0x76 ∧
     pkt_low8 (PKT3 0x76 1 0) = 1 ∧
     pkt_count_field (PKT3 0x76 1 0) = 1 + 256 * (0x76 % 64) ∧
     pkt_predicate_bit (PKT3 0x76 1 0) = 1) :=
  ⟨by decide, by decide, by decide,
   c1_header_roundtrip (by decide) (by decide) (by decide)⟩

/-! ## C2: acquire-barrier append -/

/-- C2 (counterexample): appending one acquire-barrier to the empty stream
does not append 6 words — the code performs 7 `da_append` calls (header plus
6 trailing dwords) — and the header's 14-bit count field does not read 5. -/
theorem c2_counterexample :
    (pkt3_acquire_mem []).length ≠ 6 ∧
    pkt_count_field ((pkt3_acquire_mem []).getD 0 0) ≠ 5 := by
  decide

/-- C2 (amended): appending one acquire-barrier appends exactly 7 words — one
header followed by exactly 6 trailing dwords (PM4 headers carry one less than
the number of trailing dwords, and the code passes count 5) — and previously
appended words are unchanged.  The header is `0xC0005805`; its low 8 bits
decode to the count argument 5, while the full 14-bit count field (bits
[0:13]) decodes to `0x1805` because the opcode field overlaps bits [8:13]. -/
theorem c2_acquire_mem_append (ps : List Nat) :
    (pkt3_acquire_mem ps).length = ps.length + 7 ∧
    (pkt3_acquire_mem ps).take ps.length = ps ∧
    (pkt3_acquire_mem ps).drop ps.length =
      [0xC0005805, 0x1B, 0xFFFFFFFF, 0xFF, 0, 0, 0] ∧
    pkt_low8 0xC0005805 = 5 ∧
    pkt_count_field 0xC0005805 = 0x1805 := by
  refine ⟨?_, ?_, ?_, by decide, by decide⟩
  · simp [pkt3_acquire_mem]
  · unfold pkt3_acquire_mem
    exact List.take_left ps _
  · unfold pkt3_acquire_mem
    rw [List.drop_left]
    decide

/-! ## C3: release-fence append -/

/-- C3 (code bug): evaluating `pkt3_release_mem` on the empty stream at
`va = 0x123456789A`, `fence_value = 77` appends 8 words, i.e. 7 trailing
dwords after the header — one more than the count argument 6 declared in the
header and than the "(6 dwords following)" comment in the code — because of
the extra `INT_SEL` dword.  The address split (low 32 bits of `va`, then
high 32 bits, then the fence value) is as the claim states, at word indices
3, 4 and 5.  The header's 14-bit count field reads `0x906`, not 6, because
the opcode field overlaps it. -/
theorem c3_release_mem_eval :
    (pkt3_release_mem [] 0x123456789A 77).length = 8 ∧
    (pkt3_release_mem [] 0x123456789A 77).drop 1 =
      [0x2E05, 1, 0x3456789A, 0x12, 77, 0, 0] ∧
    pkt_count_field ((pkt3_release_mem [] 0x123456789A 77).getD 0 0) = 0x906 := by
  decide

/-! ## C4: register-write at offset 0xB848 -/

/-- C4 (code bug): appending a register-write for offset `0xB848` never
succeeds — the `HDB_ASSERT` window `[0x2C00, 0x3000)` rejects `0xB848`, so the
call aborts instead of emitting the 3 words the claim (and the code's own API
documentation, which names `R_00B848_COMPUTE_PGM_RSRC1` as an example
argument) promises. -/
theorem c4_set_sh_reg_b848_faults (packets : List Nat) (value : Nat) :
    pkt3_set_sh_reg packets R_00B848_COMPUTE_PGM_RSRC1 value = none := by
  unfold pkt3_set_sh_reg
  exact if_neg (by decide)

/-! ## C5: SH-register window boundaries -/

/-- C5: `pkt3_set_sh_reg` faults (aborts, modelled as `none`) exactly when
the target offset lies outside `[0x2C00, 0x3000)`; in particular `0x2BFF` and
`0x3000` fault while `0x2C00` and `0x2FFF` succeed. -/
theorem c5_sh_window :
    (∀ (packets : List Nat) (reg value : Nat),
      pkt3_set_sh_reg packets reg value = none ↔
        ¬(0x2C00 ≤ reg ∧ reg < 0x3000)) ∧
    pkt3_set_sh_reg [] 0x2BFF 0 = none ∧
    pkt3_set_sh_reg [] 0x3000 0 = none ∧
    pkt3_set_sh_reg [] 0x2C00 0 ≠ none ∧
    pkt3_set_sh_reg [] 0x2FFF 0 ≠ none := by
  refine ⟨?_, by decide, by decide, by decide, by decide⟩
  intro packets reg value
  unfold pkt3_set_sh_reg SI_SH_REG_OFFSET SI_SH_REG_END
  by_cases h : 0x2C00 ≤ reg ∧ reg < 0x3000
  · simp [h]
  · simp [h]

/-! ## C6: compound dispatch builder -/

/-- C6 (code bug): `build_compute_dispatch` aborts on every input.  A
misaligned code address trips the alignment assert, as the claim says, but an
aligned address aborts as well: the very first nested register-write targets
`COMPUTE_PGM_LO = 0xB830`, which the SH-window assert `[0x2C00, 0x3000)`
rejects, so the builder can never reach the point of emitting the program
address registers. -/
theorem c6_build_compute_dispatch_faults (packets : List Nat)
    (code_va rsrc1 rsrc2 rsrc3 threads_x threads_y threads_z
     groups_x groups_y groups_z : Nat) :
    build_compute_dispatch packets code_va rsrc1 rsrc2 rsrc3
      threads_x threads_y threads_z groups_x groups_y groups_z = none := by
  unfold build_compute_dispatch
  split
  · simp [pkt3_set_sh_reg, R_00B830_COMPUTE_PGM_LO, SI_SH_REG_OFFSET, SI_SH_REG_END]
  · rfl

/-! ## Memory region manager (src/bo.h, src/bo.c)

`bo_alloc` issues a sequence of fallible kernel/libdrm calls.  The kernel is
modelled as an oracle `KernelEnv` fixing each call's return code and the
values a successful call hands back.  The resource effect of the calls is
recorded as a trace of `KernelCall` events: an acquiring event is emitted only
when the corresponding call succeeds, a releasing event whenever the code
issues the release (the code ignores the result of the rollback unmap ioctl,
so that event is emitted unconditionally on that path). -/

/-- Memory domain constants from the kernel UAPI (`amdgpu_drm.h`, an external
dependency of the repository). -/
def AMDGPU_GEM_DOMAIN_GTT : Nat := 0x2

def AMDGPU_GEM_DOMAIN_GDS : Nat := 0x8

def AMDGPU_GEM_DOMAIN_GWS : Nat := 0x10

def AMDGPU_GEM_DOMAIN_OA : Nat := 0x20

/-- `PAGE_SIZE` from `src/util.h`. -/
def PAGE_SIZE : Nat := 4096

/-- `ALIGN_UP(value, alignment)` from `src/util.h`:
`((value) + (alignment) - 1) & ~((alignment) - 1))` in `size_t` (64-bit)
arithmetic; the complement of `alignment - 1` sign-extends to 64 bits. -/
def ALIGN_UP (value alignment : Nat) : Nat :=
  ((value + alignment - 1) % 2 ^ 64) &&& ((2 ^ 64 - 1) ^^^ (alignment - 1))

/-- `amdgpu_bo_t` from `src/bo.h`.  Nullable handles and pointers are
`Option Nat`; `kms_handle` is a plain `uint32_t` (cleared means `0`). -/
structure amdgpu_bo_t where
  bo_handle : Option Nat
  va_handle : Option Nat
  va_addr : Nat
  host_addr : Option Nat
  size : Nat
  kms_handle : Nat
deriving DecidableEq

/-- Resource-effect events of the kernel/libdrm calls issued by `bo_alloc`
and `bo_free`. -/
inductive KernelCall where
  | acq_bo_alloc
  | rel_bo_free
  | acq_va_range_alloc
  | rel_va_range_free
  | acq_gem_va_map
  | rel_gem_va_unmap
  | acq_cpu_map
  | rel_cpu_unmap
deriving DecidableEq

/-- Oracle for the five fallible stages of `bo_alloc` and the values returned
by the successful calls. -/
structure KernelEnv where
  alloc_ret : Int
  export_ret : Int
  va_alloc_ret : Int
  map_ret : Int
  cpu_map_ret : Int
  bo_handle_val : Nat
  kms_handle_val : Nat
  va_handle_val : Nat
  va_addr_val : Nat
  host_addr_val : Nat
deriving DecidableEq

/-- `bo_alloc` from `src/bo.c`.  Returns the `int32_t` result, the resource
trace, and the caller's output structure (written only on the success path,
exactly as in the C code).  Of the creation flags, only the
`AMDGPU_GEM_CREATE_CPU_ACCESS_REQUIRED` bit is observable in the model: it is
set exactly for the non-special domains (the `uncached` USWC bit and the
VA-map flags have no further observable effect here). -/
def bo_alloc (env : KernelEnv) (size domain : Nat) (uncached : Bool)
    (bo : amdgpu_bo_t) : Int × List KernelCall × amdgpu_bo_t :=
  let special := domain = AMDGPU_GEM_DOMAIN_GWS ∨ domain = AMDGPU_GEM_DOMAIN_GDS ∨
    domain = AMDGPU_GEM_DOMAIN_OA
  let actual_size := if special then size else ALIGN_UP size PAGE_SIZE
  let cpu_access := ¬special
  if env.alloc_ret ≠ 0 then
    (env.alloc_ret, [], bo)
  else if env.export_ret ≠ 0 then
    (env.export_ret, [.acq_bo_alloc, .rel_bo_free], bo)
  else if env.va_alloc_ret ≠ 0 then
    (env.va_alloc_ret, [.acq_bo_alloc, .rel_bo_free], bo)
  else if env.map_ret ≠ 0 then
    (env.map_ret,
     [.acq_bo_alloc, .acq_va_range_alloc, .rel_va_range_free, .rel_bo_free], bo)
  else if cpu_access then
    if env.cpu_map_ret ≠ 0 then
      (env.cpu_map_ret,
       [.acq_bo_alloc, .acq_va_range_alloc, .acq_gem_va_map,
        .rel_gem_va_unmap, .rel_va_range_free, .rel_bo_free], bo)
    else
      (0,
       [.acq_bo_alloc, .acq_va_range_alloc, .acq_gem_va_map, .acq_cpu_map],
       { bo_handle := some env.bo_handle_val, va_handle := some env.va_handle_val,
         va_addr := env.va_addr_val, host_addr := some env.host_addr_val,
         size := actual_size, kms_handle := env.kms_handle_val })
  else
    (0,
     [.acq_bo_alloc, .acq_va_range_alloc, .acq_gem_va_map],
     { bo_handle := some env.bo_handle_val, va_handle := some env.va_handle_val,
       va_addr := env.va_addr_val, host_addr := none,
       size := actual_size, kms_handle := env.kms_handle_val })

/-- Every resource acquired in the trace has been released. -/
def all_released (tr : List KernelCall) : Prop :=
  tr.count .acq_bo_alloc = tr.count .rel_bo_free ∧
  tr.count .acq_va_range_alloc = tr.count .rel_va_range_free ∧
  tr.count .acq_gem_va_map = tr.count .rel_gem_va_unmap ∧
  tr.count .acq_cpu_map = tr.count .rel_cpu_unmap

/-- The return code of the first failing stage of `bo_alloc`, in stage order
(allocation, handle export, VA-range reservation, VA mapping, CPU mapping —
the last only for domains that request CPU access). -/
def bo_alloc_first_fail (env : KernelEnv) (domain : Nat) : Int :=
  let special := domain = AMDGPU_GEM_DOMAIN_GWS ∨ domain = AMDGPU_GEM_DOMAIN_GDS ∨
    domain = AMDGPU_GEM_DOMAIN_OA
  let cpu_access := ¬special
  if env.alloc_ret ≠ 0 then env.alloc_ret
  else if env.export_ret ≠ 0 then env.export_ret
  else if env.va_alloc_ret ≠ 0 then env.va_alloc_ret
  else if env.map_ret ≠ 0 then env.map_ret
  else if cpu_access then
    if env.cpu_map_ret ≠ 0 then env.cpu_map_ret else 0
  else 0

/-- `bo_free` from `src/bo.c`: early return when already freed, otherwise CPU
unmap (if mapped), VA unmap and VA-range release (if reserved), then BO
release, clearing `host_addr`, `va_handle` and `bo_handle` along the way. -/
def bo_free (bo : amdgpu_bo_t) : amdgpu_bo_t × List KernelCall :=
  match bo.bo_handle with
  | none => (bo, [])
  | some _ =>
      let s1 : amdgpu_bo_t × List KernelCall :=
        if bo.host_addr ≠ none then
          ({ bo with host_addr := none }, [.rel_cpu_unmap])
        else (bo, [])
      let s2 : amdgpu_bo_t × List KernelCall :=
        if s1.1.va_handle ≠ none then
          ({ s1.1 with va_handle := none }, [.rel_gem_va_unmap, .rel_va_range_free])
        else (s1.1, [])
      ({ s2.1 with bo_handle := none }, s1.2 ++ s2.2 ++ [.rel_bo_free])

/-- Modelled from the spec: `round_up(s, p)`, the mathematical rounding of `s`
up to the next multiple of `p`. -/
def round_up (s p : Nat) : Nat := p * ((s + p - 1) / p)

/-- An all-zero output structure, used for concrete evaluations. -/
def bo_zero : amdgpu_bo_t := ⟨none, none, 0, none, 0, 0⟩

/-- A kernel oracle on which every stage succeeds. -/
def env_ok : KernelEnv := ⟨0, 0, 0, 0, 0, 1, 2, 3, 0x10000, 0x7F000000⟩

/-- A kernel oracle whose VA-range reservation stage fails with `-22`. -/
def env_va_fail : KernelEnv := ⟨0, 0, -22, 0, 0, 1, 2, 3, 0x10000, 0x7F000000⟩

/-- Masking a 64-bit value with `~0xFFF` (in 64 bits) clears the low 12 bits,
i.e. rounds down to a multiple of 4096. -/
theorem and_align_mask {x : Nat} (hx : x < 2 ^ 64) :
    x &&& (2 ^ 64 - 4096) = 4096 * (x / 4096) := by
  have hm : (2 ^ 64 - 4096 : Nat) = (2 ^ 52 - 1) <<< 12 := by decide
  have hr : 4096 * (x / 4096) = (x >>> 12) <<< 12 := by
    rw [Nat.shiftLeft_eq, Nat.shiftRight_eq_div_pow]
    norm_num
    ring
  rw [hm, hr]
  apply Nat.eq_of_testBit_eq
  intro i
  rw [Nat.testBit_and, Nat.testBit_shiftLeft, Nat.testBit_shiftLeft,
    Nat.testBit_shiftRight, Nat.testBit_two_pow_sub_one]
  by_cases h12 : 12 ≤ i
  · have hi : 12 + (i - 12) = i := by omega
    by_cases h64 : i < 64
    · simp [h12, hi, show i - 12 < 52 by omega]
    · have hxi : x.testBit i = false := by
        apply Nat.testBit_lt_two_pow
        calc x < 2 ^ 64 := hx
          _ ≤ 2 ^ i := Nat.pow_le_pow_right (by norm_num) (by omega)
      simp [h12, hi, hxi]
  · simp [h12]

/-- `ALIGN_UP` at page granularity agrees with the spec's `round_up` whenever
the 64-bit addition `value + 4095` does not wrap. -/
theorem ALIGN_UP_eq_round_up {s : Nat} (h : s + 4095 < 2 ^ 64) :
    ALIGN_UP s PAGE_SIZE = round_up s PAGE_SIZE := by
  unfold ALIGN_UP round_up PAGE_SIZE
  have hmask : ((2 ^ 64 - 1 : Nat) ^^^ (4096 - 1)) = 2 ^ 64 - 4096 := by decide
  rw [hmask, Nat.mod_eq_of_lt (by omega), and_align_mask (by omega)]

/-! ## C7: allocation size policy -/

/-- C7 (counterexample): the claim fails at the top of the `size_t` range.
With an all-success kernel oracle and the normal GTT domain, requesting
`2 ^ 64 - 1` bytes succeeds, but the `ALIGN_UP` computation wraps in 64-bit
arithmetic and the returned region's size field is `0` — not the rounded-up
size, and smaller than the request. -/
theorem c7_counterexample :
    (bo_alloc env_ok (2 ^ 64 - 1) AMDGPU_GEM_DOMAIN_GTT false bo_zero).1 = 0 ∧
    (bo_alloc env_ok (2 ^ 64 - 1) AMDGPU_GEM_DOMAIN_GTT false bo_zero).2.2.size = 0 ∧
    (0 : Nat) ≠ round_up (2 ^ 64 - 1) PAGE_SIZE ∧
    ¬(2 ^ 64 - 1 ≤
      (bo_alloc env_ok (2 ^ 64 - 1) AMDGPU_GEM_DOMAIN_GTT false bo_zero).2.2.size) := by
  refine ⟨by decide, by decide, by decide, by decide⟩

/-- C7 (amended): whenever `bo_alloc` succeeds, the returned region's size
field is: for a normal domain, `size` rounded up to the 4096-byte page size
(hence at least `size`), provided the 64-bit computation `size + 4095` does
not wrap; for the three special domains (GWS, GDS, OA), exactly `size`, and
the region has no CPU-visible pointer. -/
theorem c7_alloc_size (env : KernelEnv) (size domain : Nat) (uncached : Bool)
    (bo : amdgpu_bo_t)
    (hret : (bo_alloc env size domain uncached bo).1 = 0) :
    ((domain = AMDGPU_GEM_DOMAIN_GWS ∨ domain = AMDGPU_GEM_DOMAIN_GDS ∨
      domain = AMDGPU_GEM_DOMAIN_OA) →
        (bo_alloc env size domain uncached bo).2.2.size = size ∧
        (bo_alloc env size domain uncached bo).2.2.host_addr = none) ∧
    (¬(domain = AMDGPU_GEM_DOMAIN_GWS ∨ domain = AMDGPU_GEM_DOMAIN_GDS ∨
       domain = AMDGPU_GEM_DOMAIN_OA) → size + 4095 < 2 ^ 64 →
        (bo_alloc env size domain uncached bo).2.2.size = round_up size PAGE_SIZE ∧
        size ≤ (bo_alloc env size domain uncached bo).2.2.size) := by
  by_cases hs : domain = AMDGPU_GEM_DOMAIN_GWS ∨ domain = AMDGPU_GEM_DOMAIN_GDS ∨
      domain = AMDGPU_GEM_DOMAIN_OA
  · simp only [bo_alloc, hs, ite_true, not_true_eq_false, ite_false] at hret ⊢
    split_ifs at hret ⊢ with h1 h2 h3 h4
    · exact absurd hret h1
    · exact absurd hret h2
    · exact absurd hret h3
    · exact absurd hret h4
    · exact ⟨fun _ => ⟨rfl, rfl⟩, fun hn => hn.elim⟩
  · simp only [bo_alloc, hs, ite_false, not_false_eq_true, ite_true,
      eq_self_iff_true] at hret ⊢
    split_ifs at hret ⊢ with h1 h2 h3 h4 h5
    · exact absurd hret h1
    · exact absurd hret h2
    · exact absurd hret h3
    · exact absurd hret h4
    · exact absurd hret h5
    · refine ⟨fun hn => hn.elim, fun _ hb => ⟨ALIGN_UP_eq_round_up hb, ?_⟩⟩
      show size ≤ ALIGN_UP size PAGE_SIZE
      rw [ALIGN_UP_eq_round_up hb]
      unfold round_up PAGE_SIZE
      omega

/-- C7 (witness): the amended size policy instantiated with a normal-domain
allocation of 100 bytes (GTT) under the all-success oracle. -/
theorem c7_alloc_size_witness :
    (bo_alloc env_ok 100 AMDGPU_GEM_DOMAIN_GTT false bo_zero).1 = 0 ∧
    (((AMDGPU_GEM_DOMAIN_GTT = AMDGPU_GEM_DOMAIN_GWS ∨
       AMDGPU_GEM_DOMAIN_GTT = AMDGPU_GEM_DOMAIN_GDS ∨
       AMDGPU_GEM_DOMAIN_GTT = AMDGPU_GEM_DOMAIN_OA) →
        (bo_alloc env_ok 100 AMDGPU_GEM_DOMAIN_GTT false bo_zero).2.2.size = 100 ∧
        (bo_alloc env_ok 100 AMDGPU_GEM_DOMAIN_GTT false bo_zero).2.2.host_addr = none) ∧
     (¬(AMDGPU_GEM_DOMAIN_GTT = AMDGPU_GEM_DOMAIN_GWS ∨
        AMDGPU_GEM_DOMAIN_GTT = AMDGPU_GEM_DOMAIN_GDS ∨
        AMDGPU_GEM_DOMAIN_GTT = AMDGPU_GEM_DOMAIN_OA) → 100 + 4095 < 2 ^ 64 →
        (bo_alloc env_ok 100 AMDGPU_GEM_DOMAIN_GTT false bo_zero).2.2.size =
          round_up 100 PAGE_SIZE ∧
        100 ≤ (bo_alloc env_ok 100 AMDGPU_GEM_DOMAIN_GTT false bo_zero).2.2.size)) :=
  ⟨by decide, c7_alloc_size env_ok 100 AMDGPU_GEM_DOMAIN_GTT false bo_zero (by decide)⟩

/-! ## C8: failure unwinding -/

/-- The empty trace is balanced. -/
theorem all_released_nil : all_released [] := by
  unfold all_released
  decide

/-- The trace of a failed handle export or VA reservation is balanced. -/
theorem all_released_bo_only :
    all_released [.acq_bo_alloc, .rel_bo_free] := by
  unfold all_released
  decide

/-- The trace of a failed VA-map ioctl is balanced. -/
theorem all_released_bo_va :
    all_released [.acq_bo_alloc, .acq_va_range_alloc, .rel_va_range_free,
      .rel_bo_free] := by
  unfold all_released
  decide

/-- The trace of a failed CPU mapping is balanced. -/
theorem all_released_bo_va_map :
    all_released [.acq_bo_alloc, .acq_va_range_alloc, .acq_gem_va_map,
      .rel_gem_va_unmap, .rel_va_range_free, .rel_bo_free] := by
  unfold all_released
  decide

/-- C8: whenever `bo_alloc` fails, every resource acquired by a prior
successful stage has been released (the trace is balanced for every resource
kind), the caller's output structure is returned unmodified, and the returned
code is exactly the first failing stage's code, uninterpreted. -/
theorem c8_alloc_failure_unwinds (env : KernelEnv) (size domain : Nat)
    (uncached : Bool) (bo : amdgpu_bo_t)
    (hret : (bo_alloc env size domain uncached bo).1 ≠ 0) :
    (bo_alloc env size domain uncached bo).2.2 = bo ∧
    all_released (bo_alloc env size domain uncached bo).2.1 ∧
    (bo_alloc env size domain uncached bo).1 = bo_alloc_first_fail env domain := by
  by_cases hs : domain = AMDGPU_GEM_DOMAIN_GWS ∨ domain = AMDGPU_GEM_DOMAIN_GDS ∨
      domain = AMDGPU_GEM_DOMAIN_OA
  · simp only [bo_alloc, bo_alloc_first_fail, hs, ite_true, not_true_eq_false,
      ite_false] at hret ⊢
    split_ifs at hret ⊢ with h1 h2 h3 h4
    · exact ⟨rfl, all_released_nil, rfl⟩
    · exact ⟨rfl, all_released_bo_only, rfl⟩
    · exact ⟨rfl, all_released_bo_only, rfl⟩
    · exact ⟨rfl, all_released_bo_va, rfl⟩
    · exact absurd rfl hret
  · simp only [bo_alloc, bo_alloc_first_fail, hs, ite_false, not_false_eq_true,
      ite_true] at hret ⊢
    split_ifs at hret ⊢ with h1 h2 h3 h4 h5
    · exact ⟨rfl, all_released_nil, rfl⟩
    · exact ⟨rfl, all_released_bo_only, rfl⟩
    · exact ⟨rfl, all_released_bo_only, rfl⟩
    · exact ⟨rfl, all_released_bo_va, rfl⟩
    · exact ⟨rfl, all_released_bo_va_map, rfl⟩
    · exact absurd rfl hret

/-- C8 (witness): unwinding instantiated at a normal-domain allocation whose
VA-range reservation stage fails with `-22`: the region structure is
untouched, the trace is balanced, and `-22` is returned. -/
theorem c8_alloc_failure_unwinds_witness :
    (bo_alloc env_va_fail 100 AMDGPU_GEM_DOMAIN_GTT false bo_zero).1 ≠ 0 ∧
    ((bo_alloc env_va_fail 100 AMDGPU_GEM_DOMAIN_GTT false bo_zero).2.2 = bo_zero ∧
     all_released (bo_alloc env_va_fail 100 AMDGPU_GEM_DOMAIN_GTT false bo_zero).2.1 ∧
     (bo_alloc env_va_fail 100 AMDGPU_GEM_DOMAIN_GTT false bo_zero).1 =
       bo_alloc_first_fail env_va_fail AMDGPU_GEM_DOMAIN_GTT) :=
  ⟨by decide,
   c8_alloc_failure_unwinds env_va_fail 100 AMDGPU_GEM_DOMAIN_GTT false bo_zero
     (by decide)⟩

/-! ## C9: release clears handles and is idempotent -/

/-- A concrete allocated region with a nonzero kernel-space (KMS) handle. -/
def c9_bo : amdgpu_bo_t := ⟨some 1, some 2, 0x100000, some 3, 4096, 7⟩

/-- C9 (counterexample): releasing an allocated region does not clear all of
its handle fields — the kernel-space handle (`kms_handle`, here 7) is left
untouched by `bo_free`. -/
theorem c9_counterexample :
    c9_bo.bo_handle ≠ none ∧ (bo_free c9_bo).1.kms_handle ≠ 0 := by
  decide

/-- C9 (amended): after releasing an allocated region, the allocation handle,
the VA-range handle and the CPU pointer are cleared (the kernel-space handle
field is left unchanged, not cleared), and a second release of the same
region is a safe no-op: it performs no teardown step and changes no field. -/
theorem c9_free_clears_and_idempotent (bo : amdgpu_bo_t)
    (h : bo.bo_handle ≠ none) :
    (bo_free bo).1.bo_handle = none ∧
    (bo_free bo).1.va_handle = none ∧
    (bo_free bo).1.host_addr = none ∧
    (bo_free bo).1.kms_handle = bo.kms_handle ∧
    bo_free (bo_free bo).1 = ((bo_free bo).1, []) := by
  match hbo : bo.bo_handle with
  | none => exact absurd hbo h
  | some v =>
    by_cases h1 : bo.host_addr = none
    · by_cases h2 : bo.va_handle = none
      · simp [bo_free, hbo, h1, h2]
      · simp [bo_free, hbo, h1, h2]
    · by_cases h2 : bo.va_handle = none
      · simp [bo_free, hbo, h1, h2]
      · simp [bo_free, hbo, h1, h2]

/-- C9 (witness): the amended release behaviour at the concrete region
`c9_bo`. -/
theorem c9_free_witness :
    c9_bo.bo_handle ≠ none ∧
    ((bo_free c9_bo).1.bo_handle = none ∧
     (bo_free c9_bo).1.va_handle = none ∧
     (bo_free c9_bo).1.host_addr = none ∧
     (bo_free c9_bo).1.kms_handle = c9_bo.kms_handle ∧
     bo_free (bo_free c9_bo).1 = ((bo_free c9_bo).1, [])) :=
  ⟨by decide, c9_free_clears_and_idempotent c9_bo (by decide)⟩

/-! ## Register access and trap handler (src/regs.h, src/regs.c)

`dev_setup_trap_handler` issues `dev_op_reg32` write operations, each scoped
by an SRBM execution-context filter carrying the target VMID.  The model
records the sequence of register writes (VMID, register, 32-bit raw value);
the debugfs mechanics of `dev_op_reg32` (ioctl, seek, 4-byte write) are the
transport and have no further observable effect here. -/

/-- `gc_11_reg_t` from `src/regs.h`. -/
inductive gc_11_reg_t where
  | REG_SQ_SHADER_TBA_LO
  | REG_SQ_SHADER_TBA_HI
  | REG_SQ_SHADER_TMA_LO
  | REG_SQ_SHADER_TMA_HI
  | REG_SQ_CMD
deriving DecidableEq

/-- One register write issued through the Register Access Protocol: the
SRBM-selected VMID, the target register, and the 32-bit raw value. -/
structure RegWrite where
  vmid : Nat
  reg : gc_11_reg_t
  value : Nat
deriving DecidableEq

/-- `dev_setup_trap_handler` from `src/regs.c`.  The 256-byte alignment
`HDB_ASSERT` is modelled as `none`; otherwise the result is the list of
register writes issued by the `for_range(i, 1, 9)` loop, in order.  `tba_hi`
carries bits [47:40] of the handler address with the `trap_en` bitfield (bit
31) forced to 1. -/
def dev_setup_trap_handler (tba tma : Nat) : Option (List RegWrite) :=
  if tba &&& 0xFF = 0 then
    let tma_lo := tma % 2 ^ 32
    let tma_hi := (tma >>> 32) % 2 ^ 32
    let tba_lo := (tba >>> 8) % 2 ^ 32
    let tba_hi := ((tba >>> 40) % 2 ^ 32) ||| (1 <<< 31)
    some ((List.range' 1 8).flatMap fun i =>
      [⟨i, .REG_SQ_SHADER_TBA_LO, tba_lo⟩,
       ⟨i, .REG_SQ_SHADER_TBA_HI, tba_hi⟩,
       ⟨i, .REG_SQ_SHADER_TMA_LO, tma_lo⟩,
       ⟨i, .REG_SQ_SHADER_TMA_HI, tma_hi⟩])
  else
    none

/-! ## C10: trap-handler install targets VMIDs 1..8 only -/

/-- C10: for every 256-byte-aligned handler address and every scratch
address, trap-handler install issues register writes for exactly the VMIDs 1
through 8, in order, four writes per VMID (handler-address low/high then
scratch low/high), and no write ever targets VMID 0. -/
theorem c10_trap_handler_vmids (tba tma : Nat) (h : tba &&& 0xFF = 0) :
    ∃ ws, dev_setup_trap_handler tba tma = some ws ∧
      ws.map (fun w => (w.vmid, w.reg)) =
        [(1, .REG_SQ_SHADER_TBA_LO), (1, .REG_SQ_SHADER_TBA_HI),
         (1, .REG_SQ_SHADER_TMA_LO), (1, .REG_SQ_SHADER_TMA_HI),
         (2, .REG_SQ_SHADER_TBA_LO), (2, .REG_SQ_SHADER_TBA_HI),
         (2, .REG_SQ_SHADER_TMA_LO), (2, .REG_SQ_SHADER_TMA_HI),
         (3, .REG_SQ_SHADER_TBA_LO), (3, .REG_SQ_SHADER_TBA_HI),
         (3, .REG_SQ_SHADER_TMA_LO), (3, .REG_SQ_SHADER_TMA_HI),
         (4, .REG_SQ_SHADER_TBA_LO), (4, .REG_SQ_SHADER_TBA_HI),
         (4, .REG_SQ_SHADER_TMA_LO), (4, .REG_SQ_SHADER_TMA_HI),
         (5, .REG_SQ_SHADER_TBA_LO), (5, .REG_SQ_SHADER_TBA_HI),
         (5, .REG_SQ_SHADER_TMA_LO), (5, .REG_SQ_SHADER_TMA_HI),
         (6, .REG_SQ_SHADER_TBA_LO), (6, .REG_SQ_SHADER_TBA_HI),
         (6, .REG_SQ_SHADER_TMA_LO), (6, .REG_SQ_SHADER_TMA_HI),
         (7, .REG_SQ_SHADER_TBA_LO), (7, .REG_SQ_SHADER_TBA_HI),
         (7, .REG_SQ_SHADER_TMA_LO), (7, .REG_SQ_SHADER_TMA_HI),
         (8, .REG_SQ_SHADER_TBA_LO), (8, .REG_SQ_SHADER_TBA_HI),
         (8, .REG_SQ_SHADER_TMA_LO), (8, .REG_SQ_SHADER_TMA_HI)] ∧
      ∀ w ∈ ws, w.vmid ≠ 0 ∧ 1 ≤ w.vmid ∧ w.vmid ≤ 8 := by
  refine ⟨(List.range' 1 8).flatMap fun i =>
      [⟨i, .REG_SQ_SHADER_TBA_LO, (tba >>> 8) % 2 ^ 32⟩,
       ⟨i, .REG_SQ_SHADER_TBA_HI, ((tba >>> 40) % 2 ^ 32) ||| (1 <<< 31)⟩,
       ⟨i, .REG_SQ_SHADER_TMA_LO, tma % 2 ^ 32⟩,
       ⟨i, .REG_SQ_SHADER_TMA_HI, (tma >>> 32) % 2 ^ 32⟩], ?_, rfl, ?_⟩
  · unfold dev_setup_trap_handler
    rw [if_pos h]
  · intro w hw
    have hv : w.vmid ∈ ((List.range' 1 8).flatMap fun i =>
        [RegWrite.mk i .REG_SQ_SHADER_TBA_LO ((tba >>> 8) % 2 ^ 32),
         RegWrite.mk i .REG_SQ_SHADER_TBA_HI (((tba >>> 40) % 2 ^ 32) ||| (1 <<< 31)),
         RegWrite.mk i .REG_SQ_SHADER_TMA_LO (tma % 2 ^ 32),
         RegWrite.mk i .REG_SQ_SHADER_TMA_HI ((tma >>> 32) % 2 ^ 32)]).map
          (fun w => w.vmid) := List.mem_map_of_mem _ hw
    have hlist : ((List.range' 1 8).flatMap fun i =>
        [RegWrite.mk i .REG_SQ_SHADER_TBA_LO ((tba >>> 8) % 2 ^ 32),
         RegWrite.mk i .REG_SQ_SHADER_TBA_HI (((tba >>> 40) % 2 ^ 32) ||| (1 <<< 31)),
         RegWrite.mk i .REG_SQ_SHADER_TMA_LO (tma % 2 ^ 32),
         RegWrite.mk i .REG_SQ_SHADER_TMA_HI ((tma >>> 32) % 2 ^ 32)]).map
          (fun w => w.vmid) =
        [1, 1, 1, 1, 2, 2, 2, 2, 3, 3, 3, 3, 4, 4, 4, 4,
         5, 5, 5, 5, 6, 6, 6, 6, 7, 7, 7, 7, 8, 8, 8, 8] := rfl
    rw [hlist] at hv
    simp only [List.mem_cons, List.not_mem_nil, or_false] at hv
    omega

/-- C10 (witness): the install sequence at the aligned handler address
`0x4000` and scratch address `0x123`. -/
theorem c10_trap_handler_vmids_witness :
    (0x4000 : Nat) &&& 0xFF = 0 ∧
    (∃ ws, dev_setup_trap_handler 0x4000 0x123 = some ws ∧
      ws.map (fun w => (w.vmid, w.reg)) =
        [(1, .REG_SQ_SHADER_TBA_LO), (1, .REG_SQ_SHADER_TBA_HI),
         (1, .REG_SQ_SHADER_TMA_LO), (1, .REG_SQ_SHADER_TMA_HI),
         (2, .REG_SQ_SHADER_TBA_LO), (2, .REG_SQ_SHADER_TBA_HI),
         (2, .REG_SQ_SHADER_TMA_LO), (2, .REG_SQ_SHADER_TMA_HI),
         (3, .REG_SQ_SHADER_TBA_LO), (3, .REG_SQ_SHADER_TBA_HI),
         (3, .REG_SQ_SHADER_TMA_LO), (3, .REG_SQ_SHADER_TMA_HI),
         (4, .REG_SQ_SHADER_TBA_LO), (4, .REG_SQ_SHADER_TBA_HI),
         (4, .REG_SQ_SHADER_TMA_LO), (4, .REG_SQ_SHADER_TMA_HI),
         (5, .REG_SQ_SHADER_TBA_LO), (5, .REG_SQ_SHADER_TBA_HI),
         (5, .REG_SQ_SHADER_TMA_LO), (5, .REG_SQ_SHADER_TMA_HI),
         (6, .REG_SQ_SHADER_TBA_LO), (6, .REG_SQ_SHADER_TBA_HI),
         (6, .REG_SQ_SHADER_TMA_LO), (6, .REG_SQ_SHADER_TMA_HI),
         (7, .REG_SQ_SHADER_TBA_LO), (7, .REG_SQ_SHADER_TBA_HI),
         (7, .REG_SQ_SHADER_TMA_LO), (7, .REG_SQ_SHADER_TMA_HI),
         (8, .REG_SQ_SHADER_TBA_LO), (8, .REG_SQ_SHADER_TBA_HI),
         (8, .REG_SQ_SHADER_TMA_LO), (8, .REG_SQ_SHADER_TMA_HI)] ∧
      ∀ w ∈ ws, w.vmid ≠ 0 ∧ 1 ≤ w.vmid ∧ w.vmid ≤ 8) :=
  ⟨by decide, c10_trap_handler_vmids 0x4000 0x123 (by decide)⟩
